import Mathlib

/-!
Verification of a minimal Python ORM over sqlite3 (`src/main.py`).

The embedding mirrors the source:
* `OrmField`, `OrmInteger`, `OrmText`, `OrmFloat` — the field descriptors;
* `ormModelMetaNew` / `createTableColumns` / `createTableSql` — the metaclass
  `OrmModelMeta.__new__` and `_create_table`;
* `ormModelInit`, `save`, plus `allSql` / `filterSql` — the instance operations
  `OrmModel.__init__`, `OrmModel.save`, `OrmModel.all`, `OrmModel.filter`.

Python values reaching the ORM are modelled by `PyValue` (None, int, str,
float — REAL values carried as rationals, since the ORM only stores and
compares them).  The sqlite side (tables, INSERT with rowid auto-assignment,
SELECT with an equality-conjunction WHERE clause) is modelled by `Table`,
`insertRow`, `execAll`, `execFilterQuery`.
-/

namespace IrsOrm

/-- The Python values the ORM manipulates: `None`, `int`, `str`, `float`
(REAL values are carried as rationals — the ORM only stores and compares
them, never computes with them). -/
inductive PyValue where
  | none
  | int (i : Int)
  | str (s : String)
  | real (q : ℚ)
deriving DecidableEq, Repr

/-- The Python types relevant to the ORM's `isinstance` checks. -/
inductive PyType where
  | noneType
  | int
  | str
  | float
deriving DecidableEq, Repr

/-- Python `type(v)` for the modelled values. -/
def PyValue.typeOf : PyValue → PyType
  | PyValue.none => PyType.noneType
  | PyValue.int _ => PyType.int
  | PyValue.str _ => PyType.str
  | PyValue.real _ => PyType.float

/-- Python `isinstance(v, t)` restricted to the four modelled types (none of which
is a subclass of another). -/
def isinstance (v : PyValue) (t : PyType) : Bool :=
  v.typeOf == t

/-- Python truthiness of an optional string (`None` and `""` are falsy):
used for the metaclass's `if not primary_key:` test, where `primary_key`
is either `None` or the name of the last primary-key field. -/
def pyTruthyStr : Option String → Bool
  | Option.none => false
  | Option.some s => !s.isEmpty

/-- The source's `OrmField(primary_key, sql_type, expected_type)`. -/
structure OrmField where
  primary_key : Bool
  sql_type : String
  expected_type : PyType
deriving DecidableEq, Repr

/-- The source's `OrmInteger(primary_key)`: `sql_type='INTEGER'`, `expected_type=int`. -/
def OrmInteger (primary_key : Bool) : OrmField :=
  ⟨primary_key, "INTEGER", PyType.int⟩

/-- The source's `OrmText(primary_key)`: `sql_type='TEXT'`, `expected_type=str`. -/
def OrmText (primary_key : Bool) : OrmField :=
  ⟨primary_key, "TEXT", PyType.str⟩

/-- The source's `OrmFloat(primary_key)`: `sql_type='REAL'`, `expected_type=float`. -/
def OrmFloat (primary_key : Bool) : OrmField :=
  ⟨primary_key, "REAL", PyType.float⟩

/-- A column of the table being created, in structured form: the clause
string issued by `_create_table` is recovered by `ColumnSpec.clause`. -/
structure ColumnSpec where
  name : String
  sql_type : String
  primary_key : Bool
  autoincrement : Bool
deriving DecidableEq, Repr

/-- The column clause built by `_create_table` for one column:
`f"{field_name} {field.sql_type}"`, with `' PRIMARY KEY AUTOINCREMENT'`
appended for an INTEGER primary key and `" PRIMARY KEY"` for a
non-INTEGER primary key. -/
def ColumnSpec.clause (c : ColumnSpec) : String :=
  c.name ++ " " ++ c.sql_type ++
    (if c.primary_key then
       (if c.autoincrement then " PRIMARY KEY AUTOINCREMENT" else " PRIMARY KEY")
     else "")

/-- The column `_create_table` derives from one declared field: the
primary-key qualifier is auto-incrementing exactly when
`field.sql_type == 'INTEGER'`. -/
def declaredColumn (field_name : String) (field : OrmField) : ColumnSpec :=
  { name := field_name
    sql_type := field.sql_type
    primary_key := field.primary_key
    autoincrement := field.primary_key && (field.sql_type == "INTEGER") }

/-- The loop body of `_create_table`: walks the declared fields in order,
building one column per field and tracking the `primary_key` variable
(initially `None`, overwritten with the field name at each primary-key
field). -/
def collectColumns :
    List (String × OrmField) → Option String → List ColumnSpec × Option String
  | [], primary_key => ([], primary_key)
  | (field_name, field) :: rest, primary_key =>
      let primary_key2 :=
        if field.primary_key then Option.some field_name else primary_key
      let result := collectColumns rest primary_key2
      (declaredColumn field_name field :: result.1, result.2)

/-- The synthesized column `"id INTEGER PRIMARY KEY AUTOINCREMENT"` inserted
at position 0 when no field was marked primary key. -/
def idColumn : ColumnSpec :=
  ⟨"id", "INTEGER", true, true⟩

/-- The full column list of the created table: the declared columns, with
`idColumn` prepended when the loop's `primary_key` variable ended up falsy
(`fields.insert(0, "id INTEGER PRIMARY KEY AUTOINCREMENT")`). -/
def createTableColumns (fields : List (String × OrmField)) : List ColumnSpec :=
  let result := collectColumns fields Option.none
  if pyTruthyStr result.2 then result.1 else idColumn :: result.1

/-- The SQL text of `_create_table`:
`f"CREATE TABLE IF NOT EXISTS {cls._table_name} ({fields_sql})"` where
`fields_sql = ", ".join(fields)`. -/
def createTableSql (table_name : String) (fields : List (String × OrmField)) :
    String :=
  "CREATE TABLE IF NOT EXISTS " ++ table_name ++ " (" ++
    String.intercalate ", " ((createTableColumns fields).map ColumnSpec.clause)
    ++ ")"

/-- What `OrmModelMeta.__new__` records on the class: `cls._fields` (the
insertion-ordered dict of attributes that are `OrmField` instances) and
`cls._table_name = name.lower()`. -/
structure ClassInfo where
  fieldsOf : List (String × OrmField)
  table_name : String
deriving DecidableEq, Repr

/-- The metaclass `OrmModelMeta.__new__`: builds the class record and, when the class
name is not `'OrmModel'`, runs `_create_table` — returned here as the list
of SQL statements executed at declaration time. -/
def ormModelMetaNew (name : String) (dct : List (String × OrmField)) :
    ClassInfo × List String :=
  let cls : ClassInfo := ⟨dct, name.toLower⟩
  if name ≠ "OrmModel" then (cls, [createTableSql cls.table_name dct])
  else (cls, [])

/-- The `TypeError` raised by `save`: its message names the field, the
expected type and `type(field_value)`. -/
inductive PyError where
  | typeError (field_name : String) (expected : PyType) (got : PyType)
deriving DecidableEq, Repr

/-- The constructor `OrmModel.__init__(**kwargs)`: every declared field is set to
`kwargs.get(field_name)`, i.e. the supplied value or `None`. -/
def ormModelInit (kwargs : List (String × PyValue)) : String → PyValue :=
  fun field_name => (kwargs.lookup field_name).getD PyValue.none

/-- The validation/collection loop of `save`: for each declared field in
order, a non-primary-key field whose value fails
`isinstance(field_value, field.expected_type)` raises `TypeError`;
otherwise the `(name, value)` pair joins `fields_to_insert`. -/
def saveLoop (attrs : String → PyValue) :
    List (String × OrmField) → Except PyError (List (String × PyValue))
  | [] => Except.ok []
  | (field_name, field) :: rest =>
      let field_value := attrs field_name
      if !field.primary_key && !(isinstance field_value field.expected_type) then
        Except.error (PyError.typeError field_name field.expected_type
          field_value.typeOf)
      else
        match saveLoop attrs rest with
        | Except.error e => Except.error e
        | Except.ok tail => Except.ok ((field_name, field_value) :: tail)

/-- The parameterized INSERT built by `save`:
`f"INSERT INTO {self._table_name} ({columns})" + f"VALUES ({placeholders})"`
(note: no space before `VALUES`, as in the source). -/
def insertSql (table_name : String) (columns : List String) : String :=
  "INSERT INTO " ++ table_name ++ " (" ++ String.intercalate ", " columns ++
    ")" ++ "VALUES (" ++
    String.intercalate ", " (columns.map (fun _ => "?")) ++ ")"

/-- The single statement `save` executes, in structured form. -/
structure InsertStmt where
  sql : String
  columns : List String
  values : List PyValue
deriving DecidableEq, Repr

/-- The method `OrmModel.save`: validates and collects all declared fields, then
builds the one parameterized INSERT over them in declaration order.  The
`TypeError`, when raised, happens inside the loop, before `conn.execute`. -/
def save (cls : ClassInfo) (attrs : String → PyValue) :
    Except PyError InsertStmt :=
  match saveLoop attrs cls.fieldsOf with
  | Except.error e => Except.error e
  | Except.ok fields_to_insert =>
      Except.ok
        { sql := insertSql cls.table_name (fields_to_insert.map Prod.fst)
          columns := fields_to_insert.map Prod.fst
          values := fields_to_insert.map Prod.snd }

/-- The SQL statements a call to `save` actually executes: none when the
`TypeError` is raised, the single INSERT otherwise. -/
def saveStatements (cls : ClassInfo) (attrs : String → PyValue) :
    List String :=
  match save cls attrs with
  | Except.error _ => []
  | Except.ok ins => [ins.sql]

/-! ### The sqlite side

A small model of the sqlite behaviour the ORM relies on: a created table, a
parameterized INSERT with rowid auto-assignment for an
`INTEGER PRIMARY KEY AUTOINCREMENT` column given NULL, `SELECT *`, and
`SELECT * WHERE` over an equality conjunction. -/

/-- A column of a created sqlite table.  `rowidAlias` marks an
`INTEGER PRIMARY KEY` column: inserting NULL there lets sqlite auto-assign
the next rowid. -/
structure TableCol where
  name : String
  rowidAlias : Bool
deriving DecidableEq, Repr

/-- A sqlite table: its columns, its rows (each a tuple of values in
column order), and the AUTOINCREMENT sequence counter (last auto id
handed out). -/
structure Table where
  cols : List TableCol
  rows : List (List PyValue)
  seq : Nat
deriving DecidableEq, Repr

/-- The created-table column corresponding to one clause of the CREATE
statement: `INTEGER PRIMARY KEY` columns are rowid aliases. -/
def ColumnSpec.toTableCol (c : ColumnSpec) : TableCol :=
  ⟨c.name, c.primary_key && (c.sql_type == "INTEGER")⟩

/-- The empty table produced by executing the CREATE TABLE statement. -/
def createTable (cols : List ColumnSpec) : Table :=
  ⟨cols.map ColumnSpec.toTableCol, [], 0⟩

/-- The backing table for a declared record type, freshly created. -/
def tableFor (cls : ClassInfo) : Table :=
  createTable (createTableColumns cls.fieldsOf)

/-- The row an INSERT stores, given the next auto id and the association
of named columns to supplied values: a named column keeps its supplied
value, except NULL in a rowid alias, which is auto-assigned; an unnamed
column gets the auto id (rowid alias) or NULL. -/
def rowFor (cols : List TableCol) (newId : Int)
    (assoc : List (String × PyValue)) : List PyValue :=
  cols.map (fun c =>
    match assoc.lookup c.name with
    | Option.some v =>
        if c.rowidAlias && (v == PyValue.none) then PyValue.int newId else v
    | Option.none =>
        if c.rowidAlias then PyValue.int newId else PyValue.none)

/-- Executing `INSERT INTO t (columns) VALUES (values)`: appends one row
and advances the AUTOINCREMENT counter. -/
def insertRow (t : Table) (columns : List String) (values : List PyValue) :
    Table :=
  { cols := t.cols
    rows := t.rows ++ [rowFor t.cols (Int.ofNat t.seq + 1) (columns.zip values)]
    seq := t.seq + 1 }

/-- A full `save()` call against a table: on `TypeError` no statement runs
and the table is untouched; otherwise the single INSERT executes. -/
def runSave (cls : ClassInfo) (attrs : String → PyValue) (t : Table) :
    Option PyError × Table :=
  match save cls attrs with
  | Except.error e => (Option.some e, t)
  | Except.ok ins => (Option.none, insertRow t ins.columns ins.values)

/-- Saving a list of instances in order (each given by its attribute
values). -/
def runSaves (cls : ClassInfo) (insts : List (String → PyValue))
    (t : Table) : Table :=
  insts.foldl (fun acc a => (runSave cls a acc).2) t

/-- The rows a run of successful saves appends, described directly: the
k-th saved instance is stored with auto id `seq + k + 1` and its attribute
values associated to the declared field names. -/
def savedRows (cls : ClassInfo) (cols : List TableCol) (seq : Nat) :
    List (String → PyValue) → List (List PyValue)
  | [] => []
  | a :: rest =>
      rowFor cols (Int.ofNat seq + 1)
          (cls.fieldsOf.map (fun p => (p.1, a p.1)))
        :: savedRows cls cols (seq + 1) rest

/-- The all-NULL attribute assignment (used as a `getD` default). -/
def noAttrs : String → PyValue :=
  fun _ => PyValue.none

/-- The SQL text of `OrmModel.all`: `f"SELECT * FROM {cls._table_name}"`. -/
def allSql (cls : ClassInfo) : String :=
  "SELECT * FROM " ++ cls.table_name

/-- Executing `SELECT * FROM t`: every row, in the table's natural
(insertion/rowid) order, each an ordered tuple in column order. -/
def execAll (t : Table) : List (List PyValue) :=
  t.rows

/-- The value a row holds in the column called `name` (the first column of
that name; NULL when the row is short or the column does not exist — the
executors below reject unknown columns before this is consulted). -/
def rowValue (cols : List TableCol) (row : List PyValue) (name : String) :
    PyValue :=
  match cols, row with
  | [], _ => PyValue.none
  | _ :: _, [] => PyValue.none
  | c :: cs, v :: vs => if c.name == name then v else rowValue cs vs name

/-- sqlite `=` on stored values: NULL compares false against everything
(a NULL comparison excludes the row), INTEGER and REAL compare
numerically, TEXT compares by string equality, and values of different
storage classes are never equal. -/
def sqliteEq : PyValue → PyValue → Bool
  | PyValue.int i, PyValue.int j => i == j
  | PyValue.int i, PyValue.real q => (i : ℚ) == q
  | PyValue.real q, PyValue.int i => q == (i : ℚ)
  | PyValue.real q, PyValue.real r => q == r
  | PyValue.str s, PyValue.str u => s == u
  | _, _ => false

/-- Errors sqlite reports when executing a query. -/
inductive SqlError where
  | parseError
  | unknownColumn (name : String)
deriving DecidableEq, Repr

/-- The WHERE clause of `OrmModel.filter`:
`' AND '.join([f"{k} = ?" for k in kwargs])`. -/
def filterConditions (kwargs : List (String × PyValue)) : String :=
  String.intercalate " AND " (kwargs.map (fun kv => kv.1 ++ " = ?"))

/-- The SQL text of `OrmModel.filter`:
`f"SELECT * FROM {cls._table_name} WHERE {conditions}"`. -/
def filterSql (cls : ClassInfo) (kwargs : List (String × PyValue)) : String :=
  "SELECT * FROM " ++ cls.table_name ++ " WHERE " ++ filterConditions kwargs

/-- Executing the statement `filter` builds: with zero criteria the
statement ends in `WHERE ` with an empty conjunction, which sqlite's
parser rejects; a criterion naming a column the table lacks is rejected;
otherwise the rows satisfying every equality are returned in order. -/
def execFilterQuery (t : Table) (kwargs : List (String × PyValue)) :
    Except SqlError (List (List PyValue)) :=
  if kwargs.isEmpty then Except.error SqlError.parseError
  else
    match kwargs.find? (fun kv => !(t.cols.any (fun c => c.name == kv.1))) with
    | Option.some kv => Except.error (SqlError.unknownColumn kv.1)
    | Option.none =>
        Except.ok (t.rows.filter (fun row =>
          kwargs.all (fun kv => sqliteEq (rowValue t.cols row kv.1) kv.2)))

/-- A full `filter(**kwargs)` call against a table. -/
def runFilter (cls : ClassInfo) (kwargs : List (String × PyValue))
    (t : Table) : Except SqlError (List (List PyValue)) :=
  execFilterQuery t kwargs

/-! ### Concrete record types used by the witnesses

The spec's §8 scenario: a type with fields `{name: text, age: integer,
score: float}` and no declared primary key, and the source's commented
example `SomeTable` with an INTEGER primary key `pk`. -/

/-- Fields of the scenario type `Person(name=TEXT, age=INTEGER, score=REAL)`,
no primary key. -/
def personFields : List (String × OrmField) :=
  [("name", OrmText false), ("age", OrmInteger false), ("score", OrmFloat false)]

/-- The declared class for `personFields`, named `Person` (its table name
written out, since `String.toLower` does not reduce in the kernel). -/
def personCls : ClassInfo :=
  ⟨personFields, "person"⟩

/-- Fields of the source's example `SomeTable`, with INTEGER primary key
`pk`. -/
def someTableFields : List (String × OrmField) :=
  [("pk", OrmInteger true), ("field_1", OrmText false),
   ("field_2", OrmInteger false), ("field_3", OrmFloat false)]

/-- The declared class for `someTableFields`. -/
def someTableCls : ClassInfo :=
  ⟨someTableFields, "sometable"⟩

/-- The attribute values of `Person(name="Ann", age=30, score=4.5)`. -/
def annAttrs : String → PyValue :=
  ormModelInit [("name", PyValue.str "Ann"), ("age", PyValue.int 30),
    ("score", PyValue.real ⟨9, 2, by decide, by decide⟩)]

/-- The attribute values of `Person(name="Bo", age=25, score=3.0)`. -/
def boAttrs : String → PyValue :=
  ormModelInit [("name", PyValue.str "Bo"), ("age", PyValue.int 25),
    ("score", PyValue.real 3)]

/-- The instance `Person(name="Ann", age="thirty", score=4.5)` — `age` has the wrong
type. -/
def badAgeAttrs : String → PyValue :=
  ormModelInit [("name", PyValue.str "Ann"), ("age", PyValue.str "thirty"),
    ("score", PyValue.real ⟨9, 2, by decide, by decide⟩)]

/-- The instance `Person(name="Ann", age=30)` — `score` left unspecified. -/
def noScoreAttrs : String → PyValue :=
  ormModelInit [("name", PyValue.str "Ann"), ("age", PyValue.int 30)]

/-! ### Lemmas about table creation -/

/-- The `_create_table` loop builds one column per declared field, in
declaration order, and its `primary_key` variable ends as the left fold
that overwrites the accumulator at each primary-key field. -/
theorem collectColumns_eq (fields : List (String × OrmField))
    (pk : Option String) :
    collectColumns fields pk =
      (fields.map (fun p => declaredColumn p.1 p.2),
       fields.foldl
         (fun acc p => if p.2.primary_key then Option.some p.1 else acc) pk) := by
  induction fields generalizing pk with
  | nil => rfl
  | cons hd tl ih =>
      obtain ⟨n, f⟩ := hd
      simp only [collectColumns, ih, List.map_cons, List.foldl_cons]

/-- When every declared field name is a nonempty string, the final
`primary_key` variable is truthy iff some field was marked primary key or
the initial accumulator was already truthy. -/
theorem pyTruthy_foldl (fields : List (String × OrmField)) (pk : Option String)
    (h : ∀ p ∈ fields, p.1 ≠ "") :
    pyTruthyStr
        (fields.foldl
          (fun acc p => if p.2.primary_key then Option.some p.1 else acc) pk) =
      (fields.any (fun p => p.2.primary_key) || pyTruthyStr pk) := by
  induction fields generalizing pk with
  | nil => simp
  | cons hd tl ih =>
      obtain ⟨n, f⟩ := hd
      have hn : n ≠ "" := h (n, f) (List.mem_cons_self _ _)
      have htl : ∀ p ∈ tl, p.1 ≠ "" := fun p hp => h p (List.mem_cons_of_mem _ hp)
      rw [List.foldl_cons, List.any_cons, ih _ htl]
      cases hf : f.primary_key with
      | false => simp [hf]
      | true =>
          have hemp : n.isEmpty = false :=
            Bool.eq_false_iff.mpr (fun hcon => hn ((String.isEmpty_iff n).mp hcon))
          have hsome : pyTruthyStr (Option.some n) = true := by
            simp [pyTruthyStr, hemp]
          simp [hf, hsome]

/-- The created column list: the declared columns in order, with the
synthesized `id` column prepended exactly when no field was marked primary
key (field names assumed nonempty, as Python identifiers are). -/
theorem createTableColumns_eq (fields : List (String × OrmField))
    (h : ∀ p ∈ fields, p.1 ≠ "") :
    createTableColumns fields =
      (if fields.any (fun p => p.2.primary_key) then []
       else [idColumn]) ++ fields.map (fun p => declaredColumn p.1 p.2) := by
  simp only [createTableColumns, collectColumns_eq]
  rw [pyTruthy_foldl fields Option.none h]
  cases hany : fields.any (fun p => p.2.primary_key) <;>
    simp [hany, pyTruthyStr]

/-- Every declared field contributes its column to the created table,
whatever the primary-key situation. -/
theorem mem_createTableColumns (fields : List (String × OrmField))
    (p : String × OrmField) (hp : p ∈ fields) :
    declaredColumn p.1 p.2 ∈ createTableColumns fields := by
  simp only [createTableColumns, collectColumns_eq]
  have hmap : declaredColumn p.1 p.2 ∈ fields.map (fun q => declaredColumn q.1 q.2) :=
    List.mem_map_of_mem _ hp
  split <;> simp [hmap]

/-- C1: for every record type with at least one declared field (all field
names nonempty, as Python identifiers are), the created table has exactly
one column per declared field, in declaration order, with the synthesized
auto-incrementing `id INTEGER` primary-key column prepended as the first
column if and only if no declared field is marked primary key. -/
theorem claim1_create_table_columns (fields : List (String × OrmField))
    (_hne : fields ≠ []) (hnames : ∀ p ∈ fields, p.1 ≠ "") :
    createTableColumns fields =
      (if fields.any (fun p => p.2.primary_key) then []
       else [idColumn]) ++ fields.map (fun p => declaredColumn p.1 p.2) ∧
    idColumn.clause = "id INTEGER PRIMARY KEY AUTOINCREMENT" := by
  exact ⟨createTableColumns_eq fields hnames, rfl⟩

/-- Witness for C1 at the spec's scenario type `Person` (no declared
primary key): the `id` column is prepended to the three declared
columns. -/
theorem claim1_create_table_columns_witness :
    createTableColumns personFields =
      [idColumn, declaredColumn "name" (OrmText false),
       declaredColumn "age" (OrmInteger false),
       declaredColumn "score" (OrmFloat false)] ∧
    idColumn.clause = "id INTEGER PRIMARY KEY AUTOINCREMENT" := by
  have h := claim1_create_table_columns personFields (by decide) (by decide)
  refine ⟨?_, h.2⟩
  rw [h.1]
  decide

/-- C5: for every record type with a field marked primary key (field names
nonempty), no synthesized `id` column is added — the created columns are
exactly the declared ones — and that field's column clause carries
`PRIMARY KEY AUTOINCREMENT` when its SQL type is `INTEGER` and a plain
`PRIMARY KEY` otherwise. -/
theorem claim5_declared_primary_key (fields : List (String × OrmField))
    (name : String) (f : OrmField) (hmem : (name, f) ∈ fields)
    (hpk : f.primary_key = true) (hnames : ∀ p ∈ fields, p.1 ≠ "") :
    createTableColumns fields = fields.map (fun p => declaredColumn p.1 p.2) ∧
    declaredColumn name f ∈ createTableColumns fields ∧
    (declaredColumn name f).clause =
      name ++ " " ++ f.sql_type ++
        (if f.sql_type == "INTEGER" then " PRIMARY KEY AUTOINCREMENT"
         else " PRIMARY KEY") := by
  have hany : fields.any (fun p => p.2.primary_key) = true :=
    List.any_eq_true.mpr ⟨(name, f), hmem, hpk⟩
  refine ⟨?_, mem_createTableColumns fields (name, f) hmem, ?_⟩
  · rw [createTableColumns_eq fields hnames, hany]
    simp
  · simp only [declaredColumn, ColumnSpec.clause, hpk, if_pos rfl, true_and]
    cases hsql : f.sql_type == "INTEGER" <;> simp [hsql]

/-- Witness for C5 at the source's example `SomeTable` (INTEGER primary
key `pk`): no `id` column, and `pk`'s clause is
`pk INTEGER PRIMARY KEY AUTOINCREMENT`. -/
theorem claim5_declared_primary_key_witness :
    createTableColumns someTableFields =
      someTableFields.map (fun p => declaredColumn p.1 p.2) ∧
    (declaredColumn "pk" (OrmInteger true)).clause =
      "pk INTEGER PRIMARY KEY AUTOINCREMENT" := by
  have h := claim5_declared_primary_key someTableFields "pk" (OrmInteger true)
    (by decide) (by decide) (by decide)
  refine ⟨h.1, ?_⟩
  rw [h.2.2]
  decide

/-- C10: declaring the base type itself — the name `OrmModel` — executes
no CREATE TABLE statement, while declaring a type of any other name
executes exactly the one CREATE TABLE statement at declaration time. -/
theorem claim10_base_class_skipped (name : String)
    (dct : List (String × OrmField)) (hname : name ≠ "OrmModel") :
    (ormModelMetaNew "OrmModel" dct).2 = [] ∧
    (ormModelMetaNew name dct).2 = [createTableSql name.toLower dct] := by
  constructor
  · simp [ormModelMetaNew]
  · simp [ormModelMetaNew, hname]

/-- Witness for C10 at the name `Person`. -/
theorem claim10_base_class_skipped_witness :
    (ormModelMetaNew "OrmModel" personFields).2 = [] ∧
    (ormModelMetaNew "Person" personFields).2 =
      [createTableSql "Person".toLower personFields] := by
  exact claim10_base_class_skipped "Person" personFields (by decide)

/-! ### Lemmas about save -/

/-- When every non-primary-key field's value is an instance of its
expected type, the save loop collects all fields in declaration order
with their current values. -/
theorem saveLoop_ok_of (attrs : String → PyValue)
    (fields : List (String × OrmField))
    (h : ∀ p ∈ fields, p.2.primary_key = false →
      isinstance (attrs p.1) p.2.expected_type = true) :
    saveLoop attrs fields =
      Except.ok (fields.map (fun p => (p.1, attrs p.1))) := by
  induction fields with
  | nil => rfl
  | cons hd tl ih =>
      obtain ⟨n, f⟩ := hd
      have htl : ∀ p ∈ tl, p.2.primary_key = false →
          isinstance (attrs p.1) p.2.expected_type = true :=
        fun p hp => h p (List.mem_cons_of_mem _ hp)
      have hcond :
          (!f.primary_key && !(isinstance (attrs n) f.expected_type)) = false := by
        cases hpk : f.primary_key with
        | true => simp
        | false => simp [h (n, f) (List.mem_cons_self _ _) hpk]
      simp only [saveLoop, hcond, Bool.false_eq_true, if_false, ih htl,
        List.map_cons]

/-- If the save loop succeeded, every non-primary-key field's value passed
its `isinstance` check. -/
theorem saveLoop_pass_of_ok (attrs : String → PyValue)
    (fields : List (String × OrmField)) (l : List (String × PyValue))
    (h : saveLoop attrs fields = Except.ok l) :
    ∀ p ∈ fields, p.2.primary_key = false →
      isinstance (attrs p.1) p.2.expected_type = true := by
  induction fields generalizing l with
  | nil => intro p hp; cases hp
  | cons hd tl ih =>
      obtain ⟨n, f⟩ := hd
      intro p hp hpk
      simp only [saveLoop] at h
      by_cases hcond :
          (!f.primary_key && !(isinstance (attrs n) f.expected_type)) = true
      · rw [if_pos hcond] at h
        cases h
      · rw [if_neg hcond] at h
        have hrec : ∃ tail, saveLoop attrs tl = Except.ok tail := by
          cases hrectl : saveLoop attrs tl with
          | error e => rw [hrectl] at h; cases h
          | ok tail => exact ⟨tail, rfl⟩
        obtain ⟨tail, htail⟩ := hrec
        rcases List.mem_cons.mp hp with heq | htlmem
        · subst heq
          simp only [Bool.and_eq_true, Bool.not_eq_true', not_and] at hcond
          have := hcond (by simpa using hpk)
          simpa using this
        · exact ih tail htail p htlmem hpk

/-- A `TypeError` from the save loop always reports a declared
non-primary-key field whose value failed its `isinstance` check, naming
the field, its expected type and the value's actual type. -/
theorem saveLoop_error_spec (attrs : String → PyValue)
    (fields : List (String × OrmField)) (e : PyError)
    (h : saveLoop attrs fields = Except.error e) :
    ∃ p, p ∈ fields ∧ p.2.primary_key = false ∧
      isinstance (attrs p.1) p.2.expected_type = false ∧
      e = PyError.typeError p.1 p.2.expected_type (attrs p.1).typeOf := by
  induction fields with
  | nil => cases h
  | cons hd tl ih =>
      obtain ⟨n, f⟩ := hd
      simp only [saveLoop] at h
      by_cases hcond :
          (!f.primary_key && !(isinstance (attrs n) f.expected_type)) = true
      · rw [if_pos hcond] at h
        have hsplit : f.primary_key = false ∧
            isinstance (attrs n) f.expected_type = false := by
          simpa using hcond
        refine ⟨(n, f), List.mem_cons_self _ _, hsplit.1, hsplit.2, ?_⟩
        cases h; rfl
      · rw [if_neg hcond] at h
        cases hrectl : saveLoop attrs tl with
        | error e2 =>
            rw [hrectl] at h
            cases h
            obtain ⟨p, hp, h1, h2, h3⟩ := ih hrectl
            exact ⟨p, List.mem_cons_of_mem _ hp, h1, h2, h3⟩
        | ok tail => rw [hrectl] at h; cases h

/-- The save loop either succeeds or raises. -/
theorem saveLoop_result (attrs : String → PyValue)
    (fields : List (String × OrmField)) :
    (∃ l, saveLoop attrs fields = Except.ok l) ∨
      (∃ e, saveLoop attrs fields = Except.error e) := by
  cases h : saveLoop attrs fields with
  | error e => exact Or.inr ⟨e, rfl⟩
  | ok l => exact Or.inl ⟨l, rfl⟩

/-- Some non-primary-key field failing its check forces the save loop to
raise. -/
theorem saveLoop_error_of_fail (attrs : String → PyValue)
    (fields : List (String × OrmField))
    (h : ∃ p, p ∈ fields ∧ p.2.primary_key = false ∧
      isinstance (attrs p.1) p.2.expected_type = false) :
    ∃ e, saveLoop attrs fields = Except.error e := by
  rcases saveLoop_result attrs fields with ⟨l, hl⟩ | he
  · obtain ⟨p, hp, hpk, hinst⟩ := h
    have := saveLoop_pass_of_ok attrs fields l hl p hp hpk
    rw [this] at hinst
    cases hinst
  · exact he

/-- When every failing field would report the same error as `p` does (in
particular when `p` is the only failing field), the save loop raises
exactly `p`'s error. -/
theorem saveLoop_error_unique (attrs : String → PyValue)
    (fields : List (String × OrmField)) (p : String × OrmField)
    (hp : p ∈ fields) (hpk : p.2.primary_key = false)
    (hfail : isinstance (attrs p.1) p.2.expected_type = false)
    (hothers : ∀ q ∈ fields, q.2.primary_key = false →
      isinstance (attrs q.1) q.2.expected_type = false →
      PyError.typeError q.1 q.2.expected_type (attrs q.1).typeOf =
        PyError.typeError p.1 p.2.expected_type (attrs p.1).typeOf) :
    saveLoop attrs fields =
      Except.error
        (PyError.typeError p.1 p.2.expected_type (attrs p.1).typeOf) := by
  induction fields with
  | nil => cases hp
  | cons hd tl ih =>
      obtain ⟨n, f⟩ := hd
      by_cases hcond :
          (!f.primary_key && !(isinstance (attrs n) f.expected_type)) = true
      · have hsplit : f.primary_key = false ∧
            isinstance (attrs n) f.expected_type = false := by
          simpa using hcond
        have heq := hothers (n, f) (List.mem_cons_self _ _) hsplit.1 hsplit.2
        simp only [saveLoop, if_pos hcond]
        rw [heq]
      · have hptl : p ∈ tl := by
          rcases List.mem_cons.mp hp with heq | htl2
          · exfalso
            apply hcond
            rw [heq] at hpk hfail
            have hpk2 : f.primary_key = false := hpk
            have hfail2 : isinstance (attrs n) f.expected_type = false := hfail
            simp [hpk2, hfail2]
          · exact htl2
        have hothtl : ∀ q ∈ tl, q.2.primary_key = false →
            isinstance (attrs q.1) q.2.expected_type = false →
            PyError.typeError q.1 q.2.expected_type (attrs q.1).typeOf =
              PyError.typeError p.1 p.2.expected_type (attrs p.1).typeOf :=
          fun q hq => hothers q (List.mem_cons_of_mem _ hq)
        have herr := ih hptl hothtl
        simp only [saveLoop, if_neg hcond, herr]

/-- The operation `save` raises exactly when its loop raises, with the same error. -/
theorem save_error_iff (cls : ClassInfo) (attrs : String → PyValue)
    (e : PyError) :
    save cls attrs = Except.error e ↔
      saveLoop attrs cls.fieldsOf = Except.error e := by
  unfold save
  cases h : saveLoop attrs cls.fieldsOf <;> simp

/-- Successful `save`, described fully: all fields pass, and the single
INSERT names the declared fields in declaration order with the instance's
current values. -/
theorem save_ok_of (cls : ClassInfo) (attrs : String → PyValue)
    (h : ∀ p ∈ cls.fieldsOf, p.2.primary_key = false →
      isinstance (attrs p.1) p.2.expected_type = true) :
    save cls attrs =
      Except.ok
        { sql := insertSql cls.table_name (cls.fieldsOf.map Prod.fst)
          columns := cls.fieldsOf.map Prod.fst
          values := cls.fieldsOf.map (fun p => attrs p.1) } := by
  unfold save
  rw [saveLoop_ok_of attrs cls.fieldsOf h]
  simp only [List.map_map]
  rfl

/-- C2: `save` validates every non-primary-key field: it raises exactly
the type-mismatch `TypeError` identifying a failing field's name, expected
type and actual type; it must raise when some non-primary-key field's
value is not an instance of its expected type; and it succeeds whenever
all non-primary-key fields pass, whatever the primary-key fields hold
(including `None`) — primary-key fields are exempt. -/
theorem claim2_save_type_validation (cls : ClassInfo)
    (attrs : String → PyValue) :
    (∀ e, save cls attrs = Except.error e →
      ∃ p, p ∈ cls.fieldsOf ∧ p.2.primary_key = false ∧
        isinstance (attrs p.1) p.2.expected_type = false ∧
        e = PyError.typeError p.1 p.2.expected_type (attrs p.1).typeOf) ∧
    ((∃ p, p ∈ cls.fieldsOf ∧ p.2.primary_key = false ∧
        isinstance (attrs p.1) p.2.expected_type = false) →
      ∃ e, save cls attrs = Except.error e) ∧
    ((∀ p ∈ cls.fieldsOf, p.2.primary_key = false →
        isinstance (attrs p.1) p.2.expected_type = true) →
      ∃ ins, save cls attrs = Except.ok ins) := by
  refine ⟨?_, ?_, ?_⟩
  · intro e he
    exact saveLoop_error_spec attrs cls.fieldsOf e
      ((save_error_iff cls attrs e).mp he)
  · intro hfail
    obtain ⟨e, he⟩ := saveLoop_error_of_fail attrs cls.fieldsOf hfail
    exact ⟨e, (save_error_iff cls attrs e).mpr he⟩
  · intro hpass
    exact ⟨_, save_ok_of cls attrs hpass⟩

/-- Witness for C2: `Person(name="Ann", age="thirty", score=4.5)` fails
to save (the `age` field is non-primary-key and mistyped), while
`Person(name="Ann", age=30, score=4.5)` saves. -/
theorem claim2_save_type_validation_witness :
    (∃ e, save personCls badAgeAttrs = Except.error e) ∧
    (∃ ins, save personCls annAttrs = Except.ok ins) := by
  constructor
  · exact (claim2_save_type_validation personCls badAgeAttrs).2.1
      ⟨("age", OrmInteger false), by decide, by decide, by decide⟩
  · exact (claim2_save_type_validation personCls annAttrs).2.2 (by decide)

/-- C3: when some non-primary-key field's value has the wrong type,
`save` raises the type-mismatch error before any database statement
executes: no SQL statement runs and the backing table is unchanged (zero
rows added). -/
theorem claim3_error_before_statement (cls : ClassInfo)
    (attrs : String → PyValue) (t : Table)
    (h : ∃ p, p ∈ cls.fieldsOf ∧ p.2.primary_key = false ∧
      isinstance (attrs p.1) p.2.expected_type = false) :
    ∃ e, save cls attrs = Except.error e ∧
      saveStatements cls attrs = [] ∧
      runSave cls attrs t = (Option.some e, t) ∧
      ((runSave cls attrs t).2).rows.length = t.rows.length := by
  obtain ⟨e, he⟩ := saveLoop_error_of_fail attrs cls.fieldsOf h
  have hsave : save cls attrs = Except.error e :=
    (save_error_iff cls attrs e).mpr he
  refine ⟨e, hsave, ?_, ?_, ?_⟩
  · simp [saveStatements, hsave]
  · simp [runSave, hsave]
  · simp [runSave, hsave]

/-- Witness for C3: saving `Person(name="Ann", age="thirty", score=4.5)`
against the freshly created `person` table executes nothing and leaves
the table's zero rows in place. -/
theorem claim3_error_before_statement_witness :
    ∃ e, save personCls badAgeAttrs = Except.error e ∧
      saveStatements personCls badAgeAttrs = [] ∧
      runSave personCls badAgeAttrs (tableFor personCls) =
        (Option.some e, tableFor personCls) ∧
      ((runSave personCls badAgeAttrs (tableFor personCls)).2).rows.length =
        (tableFor personCls).rows.length := by
  exact claim3_error_before_statement personCls badAgeAttrs
    (tableFor personCls)
    ⟨("age", OrmInteger false), by decide, by decide, by decide⟩

/-- In a list with no duplicate keys (such as the entries of a Python
dict), two members with the same key are the same entry. -/
theorem eq_of_mem_nodup_keys {β : Type} (l : List (String × β))
    (hnd : (l.map Prod.fst).Nodup) (p q : String × β)
    (hp : p ∈ l) (hq : q ∈ l) (hk : p.1 = q.1) : p = q := by
  induction l with
  | nil => cases hp
  | cons hd tl ih =>
      rw [List.map_cons, List.nodup_cons] at hnd
      rcases List.mem_cons.mp hp with hp1 | hp2 <;>
        rcases List.mem_cons.mp hq with hq1 | hq2
      · rw [hp1, hq1]
      · exfalso
        have hmem : q.1 ∈ tl.map Prod.fst := List.mem_map_of_mem Prod.fst hq2
        rw [← hk, hp1] at hmem
        exact hnd.1 hmem
      · exfalso
        have hmem : p.1 ∈ tl.map Prod.fst := List.mem_map_of_mem Prod.fst hp2
        rw [hk, hq1] at hmem
        exact hnd.1 hmem
      · exact ih hnd.2 hp2 hq2

/-- A successful `save` means the loop succeeded. -/
theorem saveLoop_ok_of_save_ok (cls : ClassInfo) (attrs : String → PyValue)
    (ins : InsertStmt) (h : save cls attrs = Except.ok ins) :
    ∃ l, saveLoop attrs cls.fieldsOf = Except.ok l := by
  unfold save at h
  cases hl : saveLoop attrs cls.fieldsOf with
  | error e => rw [hl] at h; cases h
  | ok l => exact ⟨l, rfl⟩

/-- Value `None` is an instance of no expected type other than `NoneType`. -/
theorem isinstance_none_eq_false (T : PyType) (h : T ≠ PyType.noneType) :
    isinstance PyValue.none T = false := by
  cases T with
  | noneType => exact absurd rfl h
  | int => rfl
  | str => rfl
  | float => rfl

/-- C9: constructing an instance leaves an unsupplied field at `None`, and
`None` is never an instance of a field's expected type (the three field
classes expect `int`, `str`, `float`).  Hence: (1) leaving any
non-primary-key field unspecified makes `save` raise; (2) when that field
is the only failing one, the raised error is the type-mismatch error for
that very field, with actual type `NoneType`; (3) a successful `save`
requires every non-primary-key field to have been explicitly supplied
with a correctly typed value. -/
theorem claim9_unspecified_field (cls : ClassInfo)
    (kwargs : List (String × PyValue))
    (hexp : ∀ p ∈ cls.fieldsOf, p.2.expected_type ≠ PyType.noneType)
    (hnd : (cls.fieldsOf.map Prod.fst).Nodup) :
    ((∃ p, p ∈ cls.fieldsOf ∧ p.2.primary_key = false ∧
        kwargs.lookup p.1 = Option.none) →
      ∃ e, save cls (ormModelInit kwargs) = Except.error e) ∧
    (∀ p, p ∈ cls.fieldsOf → p.2.primary_key = false →
      kwargs.lookup p.1 = Option.none →
      (∀ q ∈ cls.fieldsOf, q.2.primary_key = false → q.1 ≠ p.1 →
        isinstance (ormModelInit kwargs q.1) q.2.expected_type = true) →
      save cls (ormModelInit kwargs) =
        Except.error (PyError.typeError p.1 p.2.expected_type
          PyType.noneType)) ∧
    (∀ ins, save cls (ormModelInit kwargs) = Except.ok ins →
      ∀ p ∈ cls.fieldsOf, p.2.primary_key = false →
      ∃ v, kwargs.lookup p.1 = Option.some v ∧
        isinstance v p.2.expected_type = true) := by
  refine ⟨?_, ?_, ?_⟩
  · rintro ⟨p, hp, hpk, hlk⟩
    have hval : ormModelInit kwargs p.1 = PyValue.none := by
      simp [ormModelInit, hlk]
    obtain ⟨e, he⟩ := saveLoop_error_of_fail (ormModelInit kwargs) cls.fieldsOf
      ⟨p, hp, hpk, by rw [hval]; exact isinstance_none_eq_false _ (hexp p hp)⟩
    exact ⟨e, (save_error_iff cls (ormModelInit kwargs) e).mpr he⟩
  · intro p hp hpk hlk hothers
    have hval : ormModelInit kwargs p.1 = PyValue.none := by
      simp [ormModelInit, hlk]
    have hfail : isinstance (ormModelInit kwargs p.1) p.2.expected_type = false := by
      rw [hval]
      exact isinstance_none_eq_false _ (hexp p hp)
    have hloop := saveLoop_error_unique (ormModelInit kwargs) cls.fieldsOf p
      hp hpk hfail ?_
    · rw [(save_error_iff cls (ormModelInit kwargs) _).mpr hloop]
      rw [hval]
      rfl
    · intro q hq hqpk hqfail
      by_cases hkey : q.1 = p.1
      · rw [eq_of_mem_nodup_keys cls.fieldsOf hnd q p hq hp hkey]
      · exact absurd (hothers q hq hqpk hkey) (by simp [hqfail])
  · intro ins hok p hp hpk
    obtain ⟨l, hl⟩ := saveLoop_ok_of_save_ok cls (ormModelInit kwargs) ins hok
    have hpass := saveLoop_pass_of_ok (ormModelInit kwargs) cls.fieldsOf l hl
      p hp hpk
    cases hlk : kwargs.lookup p.1 with
    | none =>
        exfalso
        have hval : ormModelInit kwargs p.1 = PyValue.none := by
          simp [ormModelInit, hlk]
        rw [hval, isinstance_none_eq_false _ (hexp p hp)] at hpass
        cases hpass
    | some v =>
        refine ⟨v, rfl, ?_⟩
        have hval : ormModelInit kwargs p.1 = v := by
          simp [ormModelInit, hlk]
        rw [hval] at hpass
        exact hpass

/-- Witness for C9: `Person(name="Ann", age=30)` (with `score` left
unspecified) fails to save with the type-mismatch error for `score`,
whose actual type is `NoneType`. -/
theorem claim9_unspecified_field_witness :
    save personCls noScoreAttrs =
      Except.error (PyError.typeError "score" PyType.float
        PyType.noneType) := by
  have h := (claim9_unspecified_field personCls
    [("name", PyValue.str "Ann"), ("age", PyValue.int 30)]
    (by decide) (by decide)).2.1
  exact h ("score", OrmFloat false) (by decide) (by decide) (by decide)
    (by decide)

/-! ### Lemmas about the stored row -/

/-- Looking up a field name in the association `save` builds yields that
field's attribute value (any entry with the name gives the same value,
since the value is a function of the name). -/
theorem lookup_map_attr (fields : List (String × OrmField))
    (attrs : String → PyValue) (nm : String)
    (h : nm ∈ fields.map Prod.fst) :
    (fields.map (fun p => (p.1, attrs p.1))).lookup nm =
      Option.some (attrs nm) := by
  induction fields with
  | nil => cases h
  | cons hd tl ih =>
      obtain ⟨m, f⟩ := hd
      by_cases hm : nm = m
      · subst hm
        simp [List.lookup_cons]
      · have htl : nm ∈ tl.map Prod.fst := by
          rw [List.map_cons] at h
          rcases List.mem_cons.mp h with h1 | h2
          · exact absurd h1 hm
          · exact h2
        have hne : (nm == m) = false := by simp [hm]
        simp [List.lookup_cons, hne, ih htl]

/-- The stored row's value in the (unique) column named like `c`: the
looked-up supplied value, with NULL in a rowid alias replaced by the auto
id, and an unnamed column getting the auto id or NULL. -/
theorem rowValue_rowFor (cols : List TableCol) (newId : Int)
    (assoc : List (String × PyValue)) (c : TableCol)
    (hmem : c ∈ cols) (hnd : (cols.map TableCol.name).Nodup) :
    rowValue cols (rowFor cols newId assoc) c.name =
      (match assoc.lookup c.name with
       | Option.some v =>
           if c.rowidAlias && (v == PyValue.none) then PyValue.int newId
           else v
       | Option.none =>
           if c.rowidAlias then PyValue.int newId else PyValue.none) := by
  induction cols with
  | nil => cases hmem
  | cons d rest ih =>
      rw [List.map_cons, List.nodup_cons] at hnd
      have hrow : rowFor (d :: rest) newId assoc =
          (match assoc.lookup d.name with
           | Option.some v =>
               if d.rowidAlias && (v == PyValue.none) then PyValue.int newId
               else v
           | Option.none =>
               if d.rowidAlias then PyValue.int newId else PyValue.none)
            :: rowFor rest newId assoc := rfl
      rw [hrow]
      by_cases hname : d.name = c.name
      · have hcd : c = d := by
          rcases List.mem_cons.mp hmem with h1 | h2
          · exact h1
          · exfalso
            apply hnd.1
            rw [hname]
            exact List.mem_map_of_mem TableCol.name h2
        subst hcd
        simp [rowValue]
      · have hc : c ∈ rest := by
          rcases List.mem_cons.mp hmem with h1 | h2
          · exact absurd (by rw [h1]) hname
          · exact h2
        have hne : (d.name == c.name) = false := by simp [hname]
        simpa [rowValue, hne] using ih hc hnd.2

/-- The row `save` stores, read back at a declared field's column: the
field's current value, except a NULL INTEGER primary key, which is
auto-assigned the id `newId`. -/
theorem rowValue_saved_field (cls : ClassInfo) (attrs : String → PyValue)
    (newId : Int) (p : String × OrmField) (hp : p ∈ cls.fieldsOf)
    (hnd : ((((createTableColumns cls.fieldsOf).map ColumnSpec.toTableCol)).map
      TableCol.name).Nodup) :
    rowValue ((createTableColumns cls.fieldsOf).map ColumnSpec.toTableCol)
        (rowFor ((createTableColumns cls.fieldsOf).map ColumnSpec.toTableCol)
          newId (cls.fieldsOf.map (fun q => (q.1, attrs q.1)))) p.1 =
      (if p.2.primary_key && (p.2.sql_type == "INTEGER")
          && (attrs p.1 == PyValue.none)
       then PyValue.int newId else attrs p.1) := by
  have hcmem : (declaredColumn p.1 p.2).toTableCol ∈
      (createTableColumns cls.fieldsOf).map ColumnSpec.toTableCol :=
    List.mem_map_of_mem _ (mem_createTableColumns cls.fieldsOf p hp)
  have hlookup := lookup_map_attr cls.fieldsOf attrs p.1
    (List.mem_map_of_mem Prod.fst hp)
  have h := rowValue_rowFor
    ((createTableColumns cls.fieldsOf).map ColumnSpec.toTableCol) newId
    (cls.fieldsOf.map (fun q => (q.1, attrs q.1)))
    ((declaredColumn p.1 p.2).toTableCol) hcmem hnd
  have hn : ((declaredColumn p.1 p.2).toTableCol).name = p.1 := rfl
  have ha : ((declaredColumn p.1 p.2).toTableCol).rowidAlias =
      (p.2.primary_key && (p.2.sql_type == "INTEGER")) := rfl
  rw [hn, hlookup, ha] at h
  rw [h]

/-- A successful `runSave`, unfolded: no error, and the inserted row
appended. -/
theorem runSave_ok (cls : ClassInfo) (attrs : String → PyValue) (t : Table)
    (hpass : ∀ p ∈ cls.fieldsOf, p.2.primary_key = false →
      isinstance (attrs p.1) p.2.expected_type = true) :
    runSave cls attrs t =
      (Option.none,
       { cols := t.cols
         rows := t.rows ++ [rowFor t.cols (Int.ofNat t.seq + 1)
           (cls.fieldsOf.map (fun p => (p.1, attrs p.1)))]
         seq := t.seq + 1 }) := by
  unfold runSave
  rw [save_ok_of cls attrs hpass]
  show ((Option.none : Option PyError),
      ({ cols := t.cols
         rows := t.rows ++ [rowFor t.cols (Int.ofNat t.seq + 1)
           ((cls.fieldsOf.map Prod.fst).zip
             (cls.fieldsOf.map (fun p => attrs p.1)))]
         seq := t.seq + 1 } : Table)) = _
  rw [List.zip_map']

/-- C4: when every non-primary-key field value matches its declared
expected type, `save` succeeds, executing exactly one parameterized
INSERT that names the declared fields in declaration order (the
primary-key field's current value included, possibly NULL), and exactly
one row is appended whose value at each declared field's column equals
the supplied value — with a NULL INTEGER primary key auto-assigned the
next id. -/
theorem claim4_save_success (cls : ClassInfo) (attrs : String → PyValue)
    (t : Table)
    (hcols : t.cols = (createTableColumns cls.fieldsOf).map
      ColumnSpec.toTableCol)
    (hnd : (t.cols.map TableCol.name).Nodup)
    (hpass : ∀ p ∈ cls.fieldsOf, p.2.primary_key = false →
      isinstance (attrs p.1) p.2.expected_type = true) :
    ∃ ins, save cls attrs = Except.ok ins ∧
      ins.columns = cls.fieldsOf.map Prod.fst ∧
      ins.values = cls.fieldsOf.map (fun p => attrs p.1) ∧
      ins.sql = insertSql cls.table_name (cls.fieldsOf.map Prod.fst) ∧
      saveStatements cls attrs = [ins.sql] ∧
      (runSave cls attrs t).1 = Option.none ∧
      ∃ row, (runSave cls attrs t).2.rows = t.rows ++ [row] ∧
        ∀ p ∈ cls.fieldsOf,
          rowValue t.cols row p.1 =
            (if p.2.primary_key && (p.2.sql_type == "INTEGER")
                && (attrs p.1 == PyValue.none)
             then PyValue.int (Int.ofNat t.seq + 1) else attrs p.1) := by
  have hsave := save_ok_of cls attrs hpass
  have hrun := runSave_ok cls attrs t hpass
  refine ⟨_, hsave, rfl, rfl, rfl, ?_, ?_, ?_⟩
  · simp [saveStatements, hsave]
  · rw [hrun]
  · refine ⟨rowFor t.cols (Int.ofNat t.seq + 1)
      (cls.fieldsOf.map (fun p => (p.1, attrs p.1))), ?_, ?_⟩
    · rw [hrun]
    · intro p hp
      rw [hcols] at hnd ⊢
      exact rowValue_saved_field cls attrs (Int.ofNat t.seq + 1) p hp hnd

/-- Witness for C4: saving `Person(name="Ann", age=30, score=4.5)` into
the fresh `person` table appends one row whose `name`, `age` and `score`
columns hold the supplied values. -/
theorem claim4_save_success_witness :
    ∃ ins, save personCls annAttrs = Except.ok ins ∧
      ins.columns = personFields.map Prod.fst ∧
      ins.values = personFields.map (fun p => annAttrs p.1) ∧
      ins.sql = insertSql "person" (personFields.map Prod.fst) ∧
      saveStatements personCls annAttrs = [ins.sql] ∧
      (runSave personCls annAttrs (tableFor personCls)).1 = Option.none ∧
      ∃ row, (runSave personCls annAttrs (tableFor personCls)).2.rows =
          (tableFor personCls).rows ++ [row] ∧
        ∀ p ∈ personFields,
          rowValue (tableFor personCls).cols row p.1 =
            (if p.2.primary_key && (p.2.sql_type == "INTEGER")
                && (annAttrs p.1 == PyValue.none)
             then PyValue.int (Int.ofNat (tableFor personCls).seq + 1)
             else annAttrs p.1) := by
  exact claim4_save_success personCls annAttrs (tableFor personCls)
    (by decide) (by decide) (by decide)

/-! ### Lemmas about reading back -/

/-- A run of successful saves keeps the columns, advances the sequence by
the number of instances, and appends exactly the described rows. -/
theorem runSaves_spec (cls : ClassInfo) (insts : List (String → PyValue))
    (t : Table)
    (hok : ∀ a ∈ insts, ∀ p ∈ cls.fieldsOf, p.2.primary_key = false →
      isinstance (a p.1) p.2.expected_type = true) :
    runSaves cls insts t =
      { cols := t.cols
        rows := t.rows ++ savedRows cls t.cols t.seq insts
        seq := t.seq + insts.length } := by
  induction insts generalizing t with
  | nil => simp [runSaves, savedRows]
  | cons a rest ih =>
      have ha := hok a (List.mem_cons_self _ _)
      have hrest : ∀ b ∈ rest, ∀ p ∈ cls.fieldsOf, p.2.primary_key = false →
          isinstance (b p.1) p.2.expected_type = true :=
        fun b hb => hok b (List.mem_cons_of_mem _ hb)
      have hstep : runSaves cls (a :: rest) t =
          runSaves cls rest ((runSave cls a t).2) := rfl
      rw [hstep, runSave_ok cls a t ha, ih _ hrest]
      simp [savedRows, Nat.add_comm, Nat.add_assoc, Nat.add_left_comm]

/-- One saved row per saved instance. -/
theorem savedRows_length (cls : ClassInfo) (cols : List TableCol)
    (seq : Nat) (insts : List (String → PyValue)) :
    (savedRows cls cols seq insts).length = insts.length := by
  induction insts generalizing seq with
  | nil => rfl
  | cons a rest ih => simp [savedRows, ih]

/-- The i-th saved row, explicitly: the i-th instance stored with auto id
`seq + i + 1`. -/
theorem savedRows_getD (cls : ClassInfo) (cols : List TableCol) (seq : Nat)
    (insts : List (String → PyValue)) (i : Nat) (h : i < insts.length) :
    (savedRows cls cols seq insts).getD i [] =
      rowFor cols (Int.ofNat (seq + i) + 1)
        (cls.fieldsOf.map (fun p => (p.1, (insts.getD i noAttrs) p.1))) := by
  induction insts generalizing seq i with
  | nil => cases h
  | cons a rest ih =>
      cases i with
      | zero => simp [savedRows]
      | succ j =>
          have hj : j < rest.length := by simpa using h
          have hrec := ih (seq + 1) j hj
          simp only [savedRows, List.getD_cons_succ, hrec]
          have harith : seq + 1 + j = seq + (j + 1) := by omega
          rw [harith]

/-- C6: `all()` returns the complete ordered sequence of the table's
rows; on the freshly created table it returns the empty sequence, and
after successfully saving N instances it returns exactly N row tuples,
the i-th holding the i-th instance's supplied values (with auto id
`i + 1` in an auto-assigned primary-key column). -/
theorem claim6_all_returns_rows (cls : ClassInfo)
    (insts : List (String → PyValue))
    (hnd : ((tableFor cls).cols.map TableCol.name).Nodup)
    (hok : ∀ a ∈ insts, ∀ p ∈ cls.fieldsOf, p.2.primary_key = false →
      isinstance (a p.1) p.2.expected_type = true) :
    (∀ u : Table, execAll u = u.rows) ∧
    execAll (tableFor cls) = [] ∧
    (execAll (runSaves cls insts (tableFor cls))).length = insts.length ∧
    (∀ i, i < insts.length → ∀ p ∈ cls.fieldsOf,
      rowValue (tableFor cls).cols
          ((execAll (runSaves cls insts (tableFor cls))).getD i []) p.1 =
        (if p.2.primary_key && (p.2.sql_type == "INTEGER")
            && ((insts.getD i noAttrs) p.1 == PyValue.none)
         then PyValue.int (Int.ofNat i + 1)
         else (insts.getD i noAttrs) p.1)) := by
  have hrun := runSaves_spec cls insts (tableFor cls) hok
  have hrows : execAll (runSaves cls insts (tableFor cls)) =
      savedRows cls (tableFor cls).cols 0 insts := by
    rw [execAll, hrun]
    rfl
  refine ⟨fun u => rfl, rfl, ?_, ?_⟩
  · rw [hrows, savedRows_length]
  · intro i hi p hp
    rw [hrows, savedRows_getD cls (tableFor cls).cols 0 insts i hi,
      Nat.zero_add]
    exact rowValue_saved_field cls (insts.getD i noAttrs) (Int.ofNat i + 1)
      p hp hnd

/-- Witness for C6: after saving Ann and Bo into the fresh `person`
table, `all()` returns two rows; the spec's scenario values are read
back (Ann's row is `(1, "Ann", 30, 4.5)`). -/
theorem claim6_all_returns_rows_witness :
    (execAll (tableFor personCls) = []) ∧
    (execAll (runSaves personCls [annAttrs, boAttrs]
      (tableFor personCls))).length = 2 ∧
    rowValue (tableFor personCls).cols
      ((execAll (runSaves personCls [annAttrs, boAttrs]
        (tableFor personCls))).getD 0 []) "age" = PyValue.int 30 := by
  have h := claim6_all_returns_rows personCls [annAttrs, boAttrs]
    (by decide) (by decide)
  refine ⟨h.2.1, h.2.2.1, ?_⟩
  have hage := h.2.2.2 0 (by decide) ("age", OrmInteger false) (by decide)
  rw [hage]
  decide

/-- C7: with at least one criterion, each naming a column of the table,
`filter` returns exactly the rows satisfying the equality conjunction
over all supplied criteria, in table order and in the same row-tuple
shape as `all()` (an order-preserving subsequence of the table's rows),
and returns zero rows when no row matches. -/
theorem claim7_filter_conjunction (cls : ClassInfo)
    (kwargs : List (String × PyValue)) (t : Table) (hne : kwargs ≠ [])
    (hcols : ∀ kv ∈ kwargs, ∃ c ∈ t.cols, c.name = kv.1) :
    runFilter cls kwargs t =
      Except.ok (t.rows.filter (fun row =>
        kwargs.all (fun kv => sqliteEq (rowValue t.cols row kv.1) kv.2))) ∧
    (t.rows.filter (fun row =>
      kwargs.all (fun kv =>
        sqliteEq (rowValue t.cols row kv.1) kv.2))).Sublist t.rows ∧
    ((∀ row ∈ t.rows,
        kwargs.all (fun kv =>
          sqliteEq (rowValue t.cols row kv.1) kv.2) = false) →
      runFilter cls kwargs t = Except.ok []) := by
  have hemp : kwargs.isEmpty = false := by
    cases kwargs with
    | nil => exact absurd rfl hne
    | cons kv rest => rfl
  have hfind : kwargs.find?
      (fun kv => !(t.cols.any (fun c => c.name == kv.1))) = Option.none := by
    rw [List.find?_eq_none]
    intro kv hkv
    obtain ⟨c, hc, hcname⟩ := hcols kv hkv
    have hany : t.cols.any (fun c => c.name == kv.1) = true :=
      List.any_eq_true.mpr ⟨c, hc, by simp [hcname]⟩
    simp [hany]
  have hok : runFilter cls kwargs t =
      Except.ok (t.rows.filter (fun row =>
        kwargs.all (fun kv => sqliteEq (rowValue t.cols row kv.1) kv.2))) := by
    unfold runFilter execFilterQuery
    rw [hemp, hfind]
    rfl
  refine ⟨hok, List.filter_sublist t.rows, ?_⟩
  intro hnomatch
  rw [hok]
  have : t.rows.filter (fun row =>
      kwargs.all (fun kv => sqliteEq (rowValue t.cols row kv.1) kv.2)) = [] :=
    List.filter_eq_nil_iff.mpr (fun row hrow => by simp [hnomatch row hrow])
  rw [this]

/-- Witness for C7, realizing the spec's scenario: after saving Ann and
Bo, `filter(name="Ann")` returns exactly the single row
`(1, "Ann", 30, 4.5)`. -/
theorem claim7_filter_conjunction_witness :
    runFilter personCls [("name", PyValue.str "Ann")]
        (runSaves personCls [annAttrs, boAttrs] (tableFor personCls)) =
      Except.ok [[PyValue.int 1, PyValue.str "Ann", PyValue.int 30,
        PyValue.real ⟨9, 2, by decide, by decide⟩]] := by
  have h := claim7_filter_conjunction personCls [("name", PyValue.str "Ann")]
    (runSaves personCls [annAttrs, boAttrs] (tableFor personCls))
    (by decide) (by decide)
  rw [h.1]
  refine congrArg Except.ok ?_
  decide

/-- C8: `filter` with zero criteria builds the statement
`SELECT * FROM <table> WHERE ` — a `WHERE` clause with an empty
conjunction — which is invalid SQL: executing it yields the database's
syntax error rather than any rows. -/
theorem claim8_empty_filter_invalid (cls : ClassInfo) (t : Table) :
    filterConditions ([] : List (String × PyValue)) = "" ∧
    filterSql cls [] = "SELECT * FROM " ++ cls.table_name ++ " WHERE " ∧
    runFilter cls [] t = Except.error SqlError.parseError := by
  refine ⟨rfl, ?_, rfl⟩
  show "SELECT * FROM " ++ cls.table_name ++ " WHERE " ++
      filterConditions [] = _
  rw [show filterConditions ([] : List (String × PyValue)) = "" from rfl,
    String.append_empty]

end IrsOrm
